import Mathlib

/-!
Shallow embedding of the client-side logic of the cfn-lint VS Code
extension (`src/client/src/extension.ts`): the preview-panel registry
(`previews`, `reloadSidePreview`, the `onDidDispose` callback and the
`cfn/fileclosed` handler), the custom-tag merge performed on activation,
and the `yamlLangaugeServerValidation` settings-reconciliation routine.

Conventions of the embedding:
* A parsed `vscode.Uri` is modelled as its two observations used by the
  code: `key` (= `uri.toString()`, the registry key) and `fsPath`.
* The `previews` JavaScript object is an association list keyed by the
  preview key; the file system is an association list from path to
  content; notifications sent and error messages shown are accumulated
  in lists.
* `inspect()` scope values are `Option Bool`, `none` meaning unset; the
  source's `=== null` test on a scope value is modelled as `isNone`.
* User interaction with `showInformationMessage` is an `Option String`
  input (`none` = the prompt was dismissed).
-/

namespace CfnLint

/-- A parsed document URI: `key` is `uri.toString()` (the registry key),
`fsPath` is the file-system path the `.dot` suffix is appended to. -/
structure Uri where
  key : String
  fsPath : String
  deriving DecidableEq, Repr

/-- A webview panel as created by `vscode.window.createWebviewPanel`:
creation order `id`, the fixed `viewType`, the `title`, and the current
`webview.html` content. -/
structure WebviewPanel where
  id : Nat
  viewType : String
  title : String
  html : String
  deriving DecidableEq, Repr

/-- The client-side state touched by the preview protocol: the `previews`
registry, the file system, the notifications sent to the server, the
error messages shown to the user, and a counter of created panels. -/
structure ClientState where
  previews : List (String × WebviewPanel)
  fsFiles : List (String × String)
  sent : List (String × String)
  shownErrors : List String
  nextPanelId : Nat
  deriving DecidableEq, Repr

/-- `previews[k]` lookup. -/
def lookupPanel (ps : List (String × WebviewPanel)) (k : String) : Option WebviewPanel :=
  (ps.find? (fun e => e.1 == k)).map Prod.snd

/-- `fs.existsSync` / `fs.readFileSync` combined: the content of path `p`
when the file exists. -/
def lookupFile (fsf : List (String × String)) (p : String) : Option String :=
  (fsf.find? (fun e => e.1 == p)).map Prod.snd

/-- The server writing the artifact file (overwrites any previous content). -/
def writeFile (fsf : List (String × String)) (p c : String) : List (String × String) :=
  (p, c) :: fsf.filter (fun e => e.1 != p)

/-- `fs.unlinkSync p` modelled as removal of the entry for `p`. -/
def eraseFile (fsf : List (String × String)) (p : String) : List (String × String) :=
  fsf.filter (fun e => e.1 != p)

/-- `delete previews[k]`. -/
def erasePanel (ps : List (String × WebviewPanel)) (k : String) : List (String × WebviewPanel) :=
  ps.filter (fun e => e.1 != k)

/-- `previews[k].webview.html = h`. -/
def setPanelHtml (ps : List (String × WebviewPanel)) (k : String) (h : String) :
    List (String × WebviewPanel) :=
  ps.map (fun e => if e.1 == k then (e.1, { e.2 with html := h }) else e)

/-- Count of registry entries under key `k`. -/
def countKey (ps : List (String × WebviewPanel)) (k : String) : Nat :=
  ps.countP (fun e => e.1 == k)

/-- The artifact path: `uri.fsPath + ".dot"`. -/
def dotFileOf (uri : Uri) : String := uri.fsPath ++ ".dot"

/-- The error message shown when the artifact file is missing. -/
def previewErrorMessage : String :=
  "Error previewing graph. Please run `pip3 install cfn-lint pydot --upgrade`"

/-- The HTML template of `getPreviewContent` up to `.renderDot(`. -/
def previewHtmlHead : String :=
  "\n\t<!DOCTYPE html>\n\t<body>\n\t\t<script src=\"https://unpkg.com/d3@5.16.0/dist/d3.min.js\"></script>\n\t\t<script src=\"https://unpkg.com/@hpcc-js/wasm@0.3.11/dist/index.min.js\"></script>\n\t\t<script src=\"https://unpkg.com/d3-graphviz@3.0.5/build/d3-graphviz.min.js\"></script>\n\t\t<div id=\"graph\" style=\"text-align: center;\"></div>\n\t\t<script>\n\t\t\td3.select(\"#graph\")\n\t\t\t.graphviz()\n\t\t\t.renderDot("

/-- The HTML template of `getPreviewContent` after the embedded content. -/
def previewHtmlTail : String := ");\n\t\t</script>\n\t</body>\n"

/-- `getPreviewContent`: embeds the artifact text as a backtick-delimited
literal inside the fixed HTML template. -/
def getPreviewContent (content : String) : String :=
  let multilineString := "`" ++ content ++ "`"
  previewHtmlHead ++ multilineString ++ previewHtmlTail

/-- The panel built by the `vscode.window.createWebviewPanel` call in
`reloadSidePreview`: view type `cfnLintPreview`, title
`'Template: ' + dotFile.slice(0, -4)`, html initially empty. -/
def newPanel (uri : Uri) (n : Nat) : WebviewPanel :=
  { id := n
    viewType := "cfnLintPreview"
    title := "Template: " ++ (dotFileOf uri).dropRight 4
    html := "" }

/-- `reloadSidePreview`: handler of the `cfn/previewIsAvailable`
notification. Checks the artifact file, shows an error and returns when
it is missing; otherwise creates the panel when none is registered under
the preview key, and sets the panel html from the artifact content. -/
def reloadSidePreview (uri : Uri) (s : ClientState) : ClientState :=
  let previewKey := uri.key
  let dotFile := dotFileOf uri
  match lookupFile s.fsFiles dotFile with
  | none => { s with shownErrors := s.shownErrors ++ [previewErrorMessage] }
  | some content =>
      let s1 :=
        match lookupPanel s.previews previewKey with
        | some _ => s
        | none =>
            { s with
              previews := s.previews ++ [(previewKey, newPanel uri s.nextPanelId)]
              nextPanelId := s.nextPanelId + 1 }
      { s1 with previews := setPanelHtml s1.previews previewKey (getPreviewContent content) }

/-- Body of the `onDidDispose` callback registered at panel creation:
remove the registry entry, unlink the artifact file, and send the
`cfn/previewClosed` notification. -/
def disposePanel (uri : Uri) (s : ClientState) : ClientState :=
  { s with
    previews := erasePanel s.previews uri.key
    fsFiles := eraseFile s.fsFiles (dotFileOf uri)
    sent := s.sent ++ [("cfn/previewClosed", uri.key)] }

/-- The user closing the panel: the panel must exist for the disposal to
fire; its `onDidDispose` callback then runs. -/
def userClosePanel (uri : Uri) (s : ClientState) : ClientState :=
  match lookupPanel s.previews uri.key with
  | none => s
  | some _ => disposePanel uri s

/-- The JavaScript error raised by `previews[uri].dispose()` when no
panel is registered under `uri`. -/
def fileClosedTypeError : String :=
  "TypeError: Cannot read properties of undefined (reading dispose)"

/-- Handler of the `cfn/fileclosed` notification: `previews[uri].dispose()`.
When a panel exists its disposal runs the `onDidDispose` callback; when
none exists the member access on `undefined` raises a `TypeError`. -/
def handleFileClosed (uri : Uri) (s : ClientState) : Except String ClientState :=
  match lookupPanel s.previews uri.key with
  | none => Except.error fileClosedTypeError
  | some _ => Except.ok (disposePanel uri s)

/-- The events of the preview protocol on a single document identity. -/
inductive PreviewEvent where
  | requestPreview
  | serverWriteArtifact (content : String)
  | previewIsAvailable
  | closePanel
  deriving DecidableEq, Repr

/-- One step of the client under a protocol event for identity `uri`. -/
def stepPreview (uri : Uri) (s : ClientState) : PreviewEvent → ClientState
  | .requestPreview => { s with sent := s.sent ++ [("cfn/requestPreview", uri.key)] }
  | .serverWriteArtifact c => { s with fsFiles := writeFile s.fsFiles (dotFileOf uri) c }
  | .previewIsAvailable => reloadSidePreview uri s
  | .closePanel => userClosePanel uri s

/-- The state at extension activation: empty registry, a given file
system, nothing sent or shown. -/
def initState (fsf : List (String × String)) : ClientState :=
  { previews := [], fsFiles := fsf, sent := [], shownErrors := [], nextPanelId := 0 }

/-- Run a sequence of protocol events from the activation state. -/
def runPreview (uri : Uri) (fsf : List (String × String)) (es : List PreviewEvent) : ClientState :=
  es.foldl (stepPreview uri) (initState fsf)

/-- The fixed CloudFormation custom-tag list declared in `activate`. -/
def cloudFormationTags : List String :=
  ["!And",
   "!And sequence",
   "!If",
   "!If sequence",
   "!Not",
   "!Not sequence",
   "!Equals",
   "!Equals sequence",
   "!Or",
   "!Or sequence",
   "!FindInMap",
   "!FindInMap sequence",
   "!Base64",
   "!Join",
   "!Join sequence",
   "!Cidr",
   "!Ref",
   "!Sub",
   "!Sub sequence",
   "!GetAtt",
   "!GetAZs",
   "!ImportValue",
   "!ImportValue sequence",
   "!Select",
   "!Select sequence",
   "!Split",
   "!Split sequence"]

/-- The tag merge of `activate`:
`currentTags.concat(cloudFormationTags.filter(item => currentTags.indexOf(item) < 0))`. -/
def mergeTags (currentTags : List String) : List String :=
  currentTags ++ cloudFormationTags.filter (fun item => decide (¬ item ∈ currentTags))

/-- A value written to the configuration store. -/
inductive ConfigValue where
  | bool (b : Bool)
  | tags (ts : List String)
  deriving DecidableEq, Repr

/-- The configuration scope a write targets; the source only ever uses
`ConfigurationTarget.Global`. -/
inductive ConfigTarget where
  | global
  deriving DecidableEq, Repr

/-- The result of `inspect('cfnLint.validateUsingJsonSchema')`: the value
at each scope, `none` when unset. -/
structure Inspection where
  globalValue : Option Bool
  workspaceValue : Option Bool
  workspaceFolderValue : Option Bool
  deriving DecidableEq, Repr

/-- The configuration reads performed by `yamlLangaugeServerValidation`:
the effective `yaml.validate` value, the inspection of
`cfnLint.validateUsingJsonSchema`, and its effective value. -/
structure ConfigState where
  validateYaml : Bool
  cfnInspect : Inspection
  cfnValidateYaml : Bool
  deriving DecidableEq, Repr

/-- Observable effects of a configuration routine: the writes performed
(key, value, scope, in order) and the number of user prompts shown. -/
structure ConfigEffects where
  writes : List (String × ConfigValue × ConfigTarget)
  prompts : Nat
  deriving DecidableEq, Repr

/-- `yamlLangaugeServerValidation`. When `yaml.validate` is active: if any
scope of the inspection is unset (the source tests the three scope values
with `|| `), show the prompt once; a `yes` answer writes the cfn-lint
toggle `false` globally, a `no` answer writes it `true` globally and sets
the local effective value to `true`; dismissal writes nothing there.
Afterwards, when the effective toggle value is `false`, `yaml.validate`
is written `false` globally. -/
def yamlLangaugeServerValidation (cfg : ConfigState) (selection : Option String) :
    ConfigEffects :=
  if cfg.validateYaml then
    let inspection := cfg.cfnInspect
    let promptNeeded := inspection.globalValue.isNone
      || inspection.workspaceFolderValue.isNone
      || inspection.workspaceValue.isNone
    let promptWrites : List (String × ConfigValue × ConfigTarget) :=
      if promptNeeded then
        if selection == some "yes" then
          [("cfnLint.validateUsingJsonSchema", ConfigValue.bool false, ConfigTarget.global)]
        else if selection == some "no" then
          [("cfnLint.validateUsingJsonSchema", ConfigValue.bool true, ConfigTarget.global)]
        else []
      else []
    let cfnValidateYaml :=
      if promptNeeded && (selection == some "no") then true else cfg.cfnValidateYaml
    let finalWrites :=
      if cfnValidateYaml = false then
        [("yaml.validate", ConfigValue.bool false, ConfigTarget.global)]
      else []
    { writes := promptWrites ++ finalWrites, prompts := if promptNeeded then 1 else 0 }
  else { writes := [], prompts := 0 }

/-- The inputs of the configuration part of `activate`: the
`cfnLint.enableAutocomplete` setting, the current `yaml.customTags`
list, the reads of the validation routine, and the user's answer to its
prompt. -/
structure ActivateInput where
  enableAutocomplete : Bool
  currentTags : List String
  cfg : ConfigState
  selection : Option String
  deriving DecidableEq, Repr

/-- The configuration effects of `activate`: when autocomplete is
enabled, write the merged tag list globally and run
`yamlLangaugeServerValidation`; otherwise do nothing. -/
def activateConfigEffects (a : ActivateInput) : ConfigEffects :=
  if a.enableAutocomplete then
    let updateTags := mergeTags a.currentTags
    let v := yamlLangaugeServerValidation a.cfg a.selection
    { writes := ("yaml.customTags", ConfigValue.tags updateTags, ConfigTarget.global) :: v.writes
      prompts := v.prompts }
  else { writes := [], prompts := 0 }

/-- A concrete document identity used to exercise the definitions. -/
def uri0 : Uri := { key := "file:///a.yaml", fsPath := "/a.yaml" }

/-- A concrete activation state in which the artifact for `uri0` exists. -/
def stateWithArtifact : ClientState :=
  { previews := [], fsFiles := [("/a.yaml.dot", "graphdata")], sent := [],
    shownErrors := [], nextPanelId := 0 }

/-- A concrete state holding an open panel for `uri0` and its artifact. -/
def stateWithPanel : ClientState :=
  { previews := [("file:///a.yaml", newPanel uri0 0)],
    fsFiles := [("/a.yaml.dot", "graphdata")], sent := [],
    shownErrors := [], nextPanelId := 1 }

/-- The prompt guard of `yamlLangaugeServerValidation` as a proposition:
`yaml.validate` is active and the cfn-lint toggle is unset at at least
one of the three configuration scopes (the source's `|| ` chain). -/
def promptCondition (cfg : ConfigState) : Prop :=
  cfg.validateYaml = true
  ∧ (cfg.cfnInspect.globalValue = none ∨ cfg.cfnInspect.workspaceFolderValue = none
      ∨ cfg.cfnInspect.workspaceValue = none)

/-- Activation input whose existing custom-tag list holds a duplicate. -/
def dupTagsInput : ActivateInput :=
  { enableAutocomplete := true
    currentTags := ["!Ref", "!Ref"]
    cfg := { validateYaml := false
             cfnInspect := { globalValue := some true, workspaceValue := some true,
                             workspaceFolderValue := some true }
             cfnValidateYaml := true }
    selection := none }

/-- Activation input with an empty existing custom-tag list. -/
def emptyTagsInput : ActivateInput :=
  { enableAutocomplete := true
    currentTags := []
    cfg := { validateYaml := false
             cfnInspect := { globalValue := some true, workspaceValue := some true,
                             workspaceFolderValue := some true }
             cfnValidateYaml := true }
    selection := none }

/-- A configuration in which the cfn-lint toggle is set at the global and
workspace scopes but unset at the workspace-folder scope. -/
def mixedScopesConfig : ConfigState :=
  { validateYaml := true
    cfnInspect := { globalValue := some true, workspaceValue := some true,
                    workspaceFolderValue := none }
    cfnValidateYaml := true }

/-- A configuration in which the toggle is unset at every scope and its
effective value is `false`. -/
def dismissConfig : ConfigState :=
  { validateYaml := true
    cfnInspect := { globalValue := none, workspaceValue := none, workspaceFolderValue := none }
    cfnValidateYaml := false }

/-- Activation input with `cfnLint.enableAutocomplete` disabled. -/
def disabledInput : ActivateInput :=
  { enableAutocomplete := false
    currentTags := ["custom"]
    cfg := { validateYaml := true
             cfnInspect := { globalValue := none, workspaceValue := none,
                             workspaceFolderValue := none }
             cfnValidateYaml := false }
    selection := some "yes" }

/- ------------------------------------------------------------------ -/
/- Theorems                                                           -/
/- ------------------------------------------------------------------ -/

theorem countKey_nil (k : String) : countKey [] k = 0 := rfl

theorem countKey_append (ps qs : List (String × WebviewPanel)) (k : String) :
    countKey (ps ++ qs) k = countKey ps k + countKey qs k := by
  simp [countKey]

theorem countKey_setPanelHtml (ps : List (String × WebviewPanel)) (k0 h k : String) :
    countKey (setPanelHtml ps k0 h) k = countKey ps k := by
  unfold countKey setPanelHtml
  rw [List.countP_map]
  congr 1
  funext e
  by_cases he : e.1 == k0 <;> simp [he, Function.comp]

theorem countKey_erasePanel_le (ps : List (String × WebviewPanel)) (k0 k : String) :
    countKey (erasePanel ps k0) k ≤ countKey ps k := by
  unfold countKey erasePanel
  exact List.Sublist.countP_le _ (List.filter_sublist ps)

theorem countKey_eq_zero_of_lookup_none (ps : List (String × WebviewPanel)) (k : String)
    (h : lookupPanel ps k = none) : countKey ps k = 0 := by
  have hf : ps.find? (fun e => e.1 == k) = none := by
    simpa [lookupPanel] using h
  unfold countKey
  rw [List.countP_eq_zero]
  exact List.find?_eq_none.mp hf

theorem reloadSidePreview_of_file_none (uri : Uri) (s : ClientState)
    (h : lookupFile s.fsFiles (dotFileOf uri) = none) :
    reloadSidePreview uri s = { s with shownErrors := s.shownErrors ++ [previewErrorMessage] } := by
  simp only [reloadSidePreview, h]

theorem reloadSidePreview_of_no_panel (uri : Uri) (s : ClientState) (content : String)
    (hf : lookupFile s.fsFiles (dotFileOf uri) = some content)
    (hp : lookupPanel s.previews uri.key = none) :
    reloadSidePreview uri s =
      { s with
        previews := setPanelHtml (s.previews ++ [(uri.key, newPanel uri s.nextPanelId)]) uri.key
          (getPreviewContent content)
        nextPanelId := s.nextPanelId + 1 } := by
  simp only [reloadSidePreview, hf, hp]

theorem reloadSidePreview_of_panel (uri : Uri) (s : ClientState) (content : String)
    (p : WebviewPanel)
    (hf : lookupFile s.fsFiles (dotFileOf uri) = some content)
    (hp : lookupPanel s.previews uri.key = some p) :
    reloadSidePreview uri s =
      { s with previews := setPanelHtml s.previews uri.key (getPreviewContent content) } := by
  simp only [reloadSidePreview, hf, hp]

theorem userClosePanel_of_some (uri : Uri) (s : ClientState) (p : WebviewPanel)
    (h : lookupPanel s.previews uri.key = some p) :
    userClosePanel uri s = disposePanel uri s := by
  unfold userClosePanel
  rw [h]

theorem countKey_stepPreview_le_one (uri : Uri) (s : ClientState) (e : PreviewEvent) (k : String)
    (h : countKey s.previews k ≤ 1) :
    countKey (stepPreview uri s e).previews k ≤ 1 := by
  cases e with
  | requestPreview => exact h
  | serverWriteArtifact c => exact h
  | previewIsAvailable =>
    show countKey (reloadSidePreview uri s).previews k ≤ 1
    cases hf : lookupFile s.fsFiles (dotFileOf uri) with
    | none =>
      rw [reloadSidePreview_of_file_none uri s hf]
      exact h
    | some content =>
      cases hp : lookupPanel s.previews uri.key with
      | some p =>
        rw [reloadSidePreview_of_panel uri s content p hf hp]
        show countKey (setPanelHtml s.previews uri.key (getPreviewContent content)) k ≤ 1
        rw [countKey_setPanelHtml]
        exact h
      | none =>
        rw [reloadSidePreview_of_no_panel uri s content hf hp]
        show countKey (setPanelHtml (s.previews ++ [(uri.key, newPanel uri s.nextPanelId)])
          uri.key (getPreviewContent content)) k ≤ 1
        rw [countKey_setPanelHtml, countKey_append]
        by_cases hk : uri.key = k
        · subst hk
          rw [countKey_eq_zero_of_lookup_none _ _ hp]
          simp [countKey]
        · have h1 : countKey [(uri.key, newPanel uri s.nextPanelId)] k = 0 := by
            simp [countKey, hk]
          rw [h1]
          simpa using h
  | closePanel =>
    show countKey (userClosePanel uri s).previews k ≤ 1
    unfold userClosePanel
    cases hp : lookupPanel s.previews uri.key with
    | none => exact h
    | some p =>
      show countKey (disposePanel uri s).previews k ≤ 1
      exact le_trans (countKey_erasePanel_le _ _ _) h

theorem countKey_foldl_le_one (uri : Uri) (es : List PreviewEvent) (s : ClientState) (k : String)
    (h : countKey s.previews k ≤ 1) :
    countKey (es.foldl (stepPreview uri) s).previews k ≤ 1 := by
  induction es generalizing s with
  | nil => exact h
  | cons e es ih => exact ih _ (countKey_stepPreview_le_one uri s e k h)

/-- Claim C1: for every sequence of request-preview, artifact-write,
preview-available and panel-close events on a single document identity,
the previews registry holds at most one panel entry per key at any
time. -/
theorem registry_at_most_one_panel (uri : Uri) (fsf : List (String × String))
    (es : List PreviewEvent) (k : String) :
    countKey (runPreview uri fsf es).previews k ≤ 1 :=
  countKey_foldl_le_one uri es (initState fsf) k (by simp [initState, countKey])

theorem setPanelHtml_append (ps qs : List (String × WebviewPanel)) (k h : String) :
    setPanelHtml (ps ++ qs) k h = setPanelHtml ps k h ++ setPanelHtml qs k h :=
  List.map_append _ _ _

theorem setPanelHtml_singleton (k : String) (p : WebviewPanel) (h : String) :
    setPanelHtml [(k, p)] k h = [(k, { p with html := h })] := by
  simp [setPanelHtml]

theorem setPanelHtml_eq_of_lookup_none (ps : List (String × WebviewPanel)) (k h : String)
    (hn : lookupPanel ps k = none) : setPanelHtml ps k h = ps := by
  have hf : ps.find? (fun e => e.1 == k) = none := by
    simpa [lookupPanel] using hn
  have hall := List.find?_eq_none.mp hf
  unfold setPanelHtml
  rw [show ps.map (fun e => if e.1 == k then (e.1, { e.2 with html := h }) else e) = ps.map id
      from List.map_congr_left ?_, List.map_id]
  intro e he
  have hne : ¬ (e.1 == k) = true := hall e he
  simp [hne]

theorem find?_filter_ne_eq_none {β : Type} (l : List (String × β)) (k : String) :
    (l.filter (fun e => e.1 != k)).find? (fun e => e.1 == k) = none := by
  rw [List.find?_eq_none]
  intro e he
  simpa using (List.mem_filter.mp he).2

theorem lookupPanel_erasePanel (ps : List (String × WebviewPanel)) (k : String) :
    lookupPanel (erasePanel ps k) k = none := by
  unfold lookupPanel erasePanel
  rw [find?_filter_ne_eq_none]
  rfl

theorem lookupFile_eraseFile (fsf : List (String × String)) (p : String) :
    lookupFile (eraseFile fsf p) p = none := by
  unfold lookupFile eraseFile
  rw [find?_filter_ne_eq_none]
  rfl

/-- Claim C2: a `previewIsAvailable` notification whose artifact exists
creates and registers exactly one new panel when none exists for the
identity, and otherwise updates the existing panel's content in place
without creating a second panel. -/
theorem preview_available_create_or_update (uri : Uri) (s : ClientState) (content : String)
    (hf : lookupFile s.fsFiles (dotFileOf uri) = some content) :
    (lookupPanel s.previews uri.key = none →
      (reloadSidePreview uri s).previews
        = s.previews ++ [(uri.key, { newPanel uri s.nextPanelId with
            html := getPreviewContent content })]
      ∧ (reloadSidePreview uri s).nextPanelId = s.nextPanelId + 1
      ∧ countKey (reloadSidePreview uri s).previews uri.key = 1)
    ∧ (∀ p, lookupPanel s.previews uri.key = some p →
      (reloadSidePreview uri s).previews = setPanelHtml s.previews uri.key (getPreviewContent content)
      ∧ (reloadSidePreview uri s).previews.length = s.previews.length
      ∧ (reloadSidePreview uri s).nextPanelId = s.nextPanelId) := by
  constructor
  · intro hp
    rw [reloadSidePreview_of_no_panel uri s content hf hp]
    have hprev : setPanelHtml (s.previews ++ [(uri.key, newPanel uri s.nextPanelId)]) uri.key
        (getPreviewContent content)
        = s.previews ++ [(uri.key, { newPanel uri s.nextPanelId with
            html := getPreviewContent content })] := by
      rw [setPanelHtml_append, setPanelHtml_eq_of_lookup_none _ _ _ hp, setPanelHtml_singleton]
    refine ⟨hprev, rfl, ?_⟩
    show countKey (setPanelHtml _ _ _) uri.key = 1
    rw [hprev, countKey_append, countKey_eq_zero_of_lookup_none _ _ hp]
    simp [countKey]
  · intro p hp
    rw [reloadSidePreview_of_panel uri s content p hf hp]
    exact ⟨rfl, (List.length_map _ _).symm ▸ rfl, rfl⟩

/-- Witness for claim C2: on the concrete activation state whose artifact
exists, the panel for `uri0` is created and registered. -/
theorem preview_available_create_or_update_witness :
    lookupFile stateWithArtifact.fsFiles (dotFileOf uri0) = some "graphdata"
    ∧ lookupPanel stateWithArtifact.previews uri0.key = none
    ∧ (reloadSidePreview uri0 stateWithArtifact).previews
        = stateWithArtifact.previews ++ [(uri0.key, { newPanel uri0 stateWithArtifact.nextPanelId with
            html := getPreviewContent "graphdata" })] :=
  ⟨by decide, rfl,
    ((preview_available_create_or_update uri0 stateWithArtifact "graphdata" (by decide)).1 rfl).1⟩

/-- Claim C3: when the artifact file is missing at `previewIsAvailable`
time, an error message is shown and nothing else changes: registry, file
system, notifications and the panel counter are untouched. -/
theorem missing_artifact_no_change (uri : Uri) (s : ClientState)
    (h : lookupFile s.fsFiles (dotFileOf uri) = none) :
    (reloadSidePreview uri s).previews = s.previews
    ∧ (reloadSidePreview uri s).shownErrors = s.shownErrors ++ [previewErrorMessage]
    ∧ (reloadSidePreview uri s).fsFiles = s.fsFiles
    ∧ (reloadSidePreview uri s).sent = s.sent
    ∧ (reloadSidePreview uri s).nextPanelId = s.nextPanelId := by
  rw [reloadSidePreview_of_file_none uri s h]
  exact ⟨rfl, rfl, rfl, rfl, rfl⟩

/-- Witness for claim C3 at a concrete state with no artifact on disk. -/
theorem missing_artifact_no_change_witness :
    lookupFile (initState []).fsFiles (dotFileOf uri0) = none
    ∧ (reloadSidePreview uri0 (initState [])).previews = (initState []).previews
    ∧ (reloadSidePreview uri0 (initState [])).shownErrors
        = (initState []).shownErrors ++ [previewErrorMessage] := by
  have h := missing_artifact_no_change uri0 (initState []) rfl
  exact ⟨rfl, h.1, h.2.1⟩

/-- Claim C4: a user panel close removes the registry entry for the
identity, deletes the artifact file so that it no longer exists, and
appends exactly one `cfn/previewClosed` notification for that identity. -/
theorem close_panel_effects (uri : Uri) (s : ClientState) (p : WebviewPanel)
    (h : lookupPanel s.previews uri.key = some p) :
    lookupPanel (userClosePanel uri s).previews uri.key = none
    ∧ lookupFile (userClosePanel uri s).fsFiles (dotFileOf uri) = none
    ∧ (userClosePanel uri s).sent = s.sent ++ [("cfn/previewClosed", uri.key)]
    ∧ (userClosePanel uri s).previews = erasePanel s.previews uri.key := by
  rw [userClosePanel_of_some uri s p h]
  exact ⟨lookupPanel_erasePanel _ _, lookupFile_eraseFile _ _, rfl, rfl⟩

/-- Witness for claim C4 at the concrete state holding an open panel. -/
theorem close_panel_effects_witness :
    lookupPanel stateWithPanel.previews uri0.key = some (newPanel uri0 0)
    ∧ lookupPanel (userClosePanel uri0 stateWithPanel).previews uri0.key = none
    ∧ lookupFile (userClosePanel uri0 stateWithPanel).fsFiles (dotFileOf uri0) = none
    ∧ (userClosePanel uri0 stateWithPanel).sent
        = stateWithPanel.sent ++ [("cfn/previewClosed", uri0.key)] := by
  have h := close_panel_effects uri0 stateWithPanel (newPanel uri0 0) (by decide)
  exact ⟨by decide, h.1, h.2.1, h.2.2.1⟩

/-- Claim C5 (divergence witness): handling a `cfn/fileclosed`
notification for an identity with no registered panel evaluates
`previews[uri].dispose()` on an undefined entry and raises a type
error instead of being a no-op. -/
theorem fileclosed_without_panel_raises :
    handleFileClosed uri0 (initState []) = Except.error fileClosedTypeError := rfl

theorem cloudFormationTags_nodup : cloudFormationTags.Nodup := by decide

theorem mergeTags_mem (l : List String) (t : String) (ht : t ∈ cloudFormationTags) :
    t ∈ mergeTags l := by
  by_cases h : t ∈ l
  · exact List.mem_append_left _ h
  · exact List.mem_append_right _ (List.mem_filter.mpr ⟨ht, by simpa using h⟩)

/-- Claim C6 (counterexample): when the existing custom-tag list already
holds a duplicate, the list written back by activation is not
duplicate-free. -/
theorem tag_merge_duplicates_counterexample :
    (activateConfigEffects dupTagsInput).writes
      = [("yaml.customTags", ConfigValue.tags (mergeTags ["!Ref", "!Ref"]), ConfigTarget.global)]
    ∧ ¬ (mergeTags ["!Ref", "!Ref"]).Nodup :=
  ⟨rfl, by decide⟩

/-- Claim C6 (amended): when autocomplete is enabled, activation's first
configuration write stores, at global scope, the merged tag list: the
existing entries first, followed by the fixed CloudFormation tags not
already present, in declaration order; the result is the set union of
the two lists and is duplicate-free whenever the existing list is. -/
theorem tag_merge_spec (a : ActivateInput) (h : a.enableAutocomplete = true)
    (hnd : a.currentTags.Nodup) :
    (activateConfigEffects a).writes.head?
      = some ("yaml.customTags", ConfigValue.tags (mergeTags a.currentTags), ConfigTarget.global)
    ∧ mergeTags a.currentTags
        = a.currentTags ++ cloudFormationTags.filter (fun item => decide (¬ item ∈ a.currentTags))
    ∧ (∀ t, t ∈ mergeTags a.currentTags ↔ (t ∈ a.currentTags ∨ t ∈ cloudFormationTags))
    ∧ (mergeTags a.currentTags).Nodup := by
  refine ⟨by simp [activateConfigEffects, h], rfl, ?_, ?_⟩
  · intro t
    constructor
    · intro h1
      rcases List.mem_append.mp h1 with h2 | h2
      · exact Or.inl h2
      · exact Or.inr (List.mem_filter.mp h2).1
    · rintro (h1 | h1)
      · exact List.mem_append_left _ h1
      · exact mergeTags_mem _ t h1
  · refine List.Nodup.append hnd (cloudFormationTags_nodup.filter _) ?_
    intro t htl htf
    have h2 := (List.mem_filter.mp htf).2
    simp only [decide_eq_true_eq] at h2
    exact h2 htl

/-- Witness for claim C6 on the empty (duplicate-free) tag list. -/
theorem tag_merge_spec_witness :
    emptyTagsInput.enableAutocomplete = true
    ∧ ([] : List String).Nodup
    ∧ (activateConfigEffects emptyTagsInput).writes.head?
        = some ("yaml.customTags", ConfigValue.tags (mergeTags []), ConfigTarget.global)
    ∧ (mergeTags []).Nodup := by
  have h := tag_merge_spec emptyTagsInput rfl List.nodup_nil
  exact ⟨rfl, List.nodup_nil, h.1, h.2.2.2⟩

/-- Claim C7: the tag merge of `activate` is idempotent — merging the
fixed CloudFormation tag list into an already merged list changes
nothing. -/
theorem mergeTags_idempotent (l : List String) : mergeTags (mergeTags l) = mergeTags l := by
  have hnil : cloudFormationTags.filter (fun item => decide (¬ item ∈ mergeTags l)) = [] := by
    rw [List.filter_eq_nil_iff]
    intro t ht
    simp [mergeTags_mem l t ht]
  show mergeTags l ++ cloudFormationTags.filter (fun item => decide (¬ item ∈ mergeTags l))
    = mergeTags l
  rw [hnil, List.append_nil]

theorem validation_prompts_eq (cfg : ConfigState) (sel : Option String) :
    (yamlLangaugeServerValidation cfg sel).prompts
      = if cfg.validateYaml
          && (cfg.cfnInspect.globalValue.isNone || cfg.cfnInspect.workspaceFolderValue.isNone
              || cfg.cfnInspect.workspaceValue.isNone)
        then 1 else 0 := by
  unfold yamlLangaugeServerValidation
  cases hv : cfg.validateYaml with
  | false => simp
  | true =>
    by_cases hpn : (cfg.cfnInspect.globalValue.isNone || cfg.cfnInspect.workspaceFolderValue.isNone
        || cfg.cfnInspect.workspaceValue.isNone) = true
    · simp [hpn]
    · rw [Bool.not_eq_true] at hpn
      simp [hpn]

theorem validation_prompt_iff (cfg : ConfigState) (sel : Option String) :
    (yamlLangaugeServerValidation cfg sel).prompts = 1 ↔ promptCondition cfg := by
  rw [validation_prompts_eq]
  unfold promptCondition
  split
  case isTrue hcond =>
    simp only [Bool.and_eq_true, Bool.or_eq_true, Option.isNone_iff_eq_none, or_assoc] at hcond
    exact iff_of_true rfl ⟨hcond.1, hcond.2⟩
  case isFalse hcond =>
    simp only [Bool.and_eq_true, Bool.or_eq_true, Option.isNone_iff_eq_none, or_assoc] at hcond
    exact iff_of_false (by simp) hcond

/-- Claim C8 (counterexample): the prompt fires although the toggle is
set at the global and workspace scopes — it is not unset at every
scope. -/
theorem prompt_condition_counterexample :
    (yamlLangaugeServerValidation mixedScopesConfig (some "yes")).prompts = 1
    ∧ ¬ (mixedScopesConfig.cfnInspect.globalValue = none
         ∧ mixedScopesConfig.cfnInspect.workspaceValue = none
         ∧ mixedScopesConfig.cfnInspect.workspaceFolderValue = none) :=
  ⟨rfl, by decide⟩

/-- Claim C8 (amended): the routine prompts (once) exactly when the
generic YAML validator setting is active and the cfn-lint toggle is
unset at at least one configuration scope; a `yes` or `no` choice is
persisted for the toggle at global scope. -/
theorem validation_prompt_spec (cfg : ConfigState) (sel : Option String) :
    ((yamlLangaugeServerValidation cfg sel).prompts = 1 ↔ promptCondition cfg)
    ∧ (yamlLangaugeServerValidation cfg sel).prompts ≤ 1
    ∧ (promptCondition cfg → sel = some "yes" →
        (yamlLangaugeServerValidation cfg sel).writes.head?
          = some ("cfnLint.validateUsingJsonSchema", ConfigValue.bool false, ConfigTarget.global))
    ∧ (promptCondition cfg → sel = some "no" →
        (yamlLangaugeServerValidation cfg sel).writes.head?
          = some ("cfnLint.validateUsingJsonSchema", ConfigValue.bool true, ConfigTarget.global)) := by
  refine ⟨validation_prompt_iff cfg sel, ?_, ?_, ?_⟩
  · rw [validation_prompts_eq]
    split <;> simp
  · rintro ⟨hv, hsc⟩ rfl
    have hpn : (cfg.cfnInspect.globalValue.isNone || cfg.cfnInspect.workspaceFolderValue.isNone
        || cfg.cfnInspect.workspaceValue.isNone) = true := by
      rcases hsc with h2 | h2 | h2 <;> simp [h2]
    simp [yamlLangaugeServerValidation, hv, hpn]
  · rintro ⟨hv, hsc⟩ rfl
    have hpn : (cfg.cfnInspect.globalValue.isNone || cfg.cfnInspect.workspaceFolderValue.isNone
        || cfg.cfnInspect.workspaceValue.isNone) = true := by
      rcases hsc with h2 | h2 | h2 <;> simp [h2]
    have hne : ((some "no" : Option String) == some "yes") = false := by decide
    simp [yamlLangaugeServerValidation, hv, hpn, hne]

/-- Witness for claim C8 at the mixed-scope configuration. -/
theorem validation_prompt_spec_witness :
    (yamlLangaugeServerValidation mixedScopesConfig (some "yes")).prompts = 1 :=
  (validation_prompt_spec mixedScopesConfig (some "yes")).1.mpr ⟨rfl, Or.inr (Or.inl rfl)⟩

/-- Claim C9 (counterexample): dismissing the prompt (no selection) still
writes a configuration setting — `yaml.validate` is disabled globally
because the effective toggle value is `false`. -/
theorem dismiss_write_counterexample :
    (yamlLangaugeServerValidation dismissConfig none).prompts = 1
    ∧ (yamlLangaugeServerValidation dismissConfig none).writes
        = [("yaml.validate", ConfigValue.bool false, ConfigTarget.global)] :=
  ⟨rfl, rfl⟩

/-- Claim C9 (amended): on dismissal the cfn-lint toggle is never
written; the generic YAML validator setting is written (disabled, at
global scope) exactly when `yaml.validate` is active and the effective
toggle value is `false`. -/
theorem dismiss_effects_spec (cfg : ConfigState) :
    (yamlLangaugeServerValidation cfg none).writes
      = if cfg.validateYaml && !cfg.cfnValidateYaml
        then [("yaml.validate", ConfigValue.bool false, ConfigTarget.global)]
        else [] := by
  have h1 : ((none : Option String) == some "yes") = false := by decide
  have h2 : ((none : Option String) == some "no") = false := by decide
  unfold yamlLangaugeServerValidation
  cases hv : cfg.validateYaml with
  | false => simp
  | true => cases hc : cfg.cfnValidateYaml <;> simp [h1, h2]

/-- Claim C10: with `cfnLint.enableAutocomplete` disabled, activation
performs no configuration writes and never invokes the validation
routine or its prompt. -/
theorem autocomplete_disabled_frame (a : ActivateInput) (h : a.enableAutocomplete = false) :
    activateConfigEffects a = { writes := [], prompts := 0 } := by
  simp [activateConfigEffects, h]

/-- Witness for claim C10 at a concrete disabled activation input. -/
theorem autocomplete_disabled_frame_witness :
    disabledInput.enableAutocomplete = false
    ∧ activateConfigEffects disabledInput = { writes := [], prompts := 0 } :=
  ⟨rfl, autocomplete_disabled_frame disabledInput rfl⟩

end CfnLint
